import Mathlib

set_option maxRecDepth 8000

/-!
Verification of the query-compilation and free-busy-rendering core of the
ccs-calendarserver repository.

The compiler embedded here follows `txdav/common/datastore/query/filegenerator.py`
(class `sqllitegenerator`).  The Python string buffer `sout` is modelled as a list
of pieces, where a piece is either literal text or a positional placeholder
(the `%s` markers that the final `select % tuple(substitutions)` step fills in);
the final formatting step is modelled by `pyformat`, which fails exactly when the
number of markers differs from the number of substitutions, as Python string
formatting does.
-/

/-- An SQL bind argument.  The Python code appends strings for text and
time values and the raw integer for the calendar (collection) id. -/
inductive Arg where
  | str (s : String)
  | int (n : Int)
deriving DecidableEq, Repr

/-- One piece of the statement under construction: literal text, or a `%s`
marker to be replaced by the corresponding substitution string. -/
inductive Piece where
  | lit (s : String)
  | hole
deriving DecidableEq, Repr

/-- Errors a compilation can end with.  `invalidQuery` and
`unsupportedExpression` model the error classes of the query-expression module
(not under src/, named by the spec); the generator in `filegenerator.py` never
raises them.  `unboundLocal` models the Python `UnboundLocalError` raised when
`generateExpression` reads the never-assigned `test` variable, `indexError`
models the `IndexError` of `expr.expressions[0]` on an empty list, and
`typeError` models the `TypeError` raised by `select % tuple(substitutions)`
when marker and substitution counts differ. -/
inductive QueryError where
  | invalidQuery
  | unsupportedExpression
  | unboundLocal
  | indexError
  | typeError
deriving DecidableEq, Repr

mutual

/-- The query expression model of `txdav.common.datastore.query.expression`
(the module itself is not under src/; the constructors mirror the class names
used by the `isinstance` dispatch in `filegenerator.py`, and the spec data
model in section 3).  `timerangeExpression.stop` models the source attribute
`end` (a reserved word here); both bounds are optional.
`unrecognizedExpression` stands for an object of any class that is not one of
the recognized variants: the dispatch chain in
`sqllitegenerator.generateExpression` has no `else` branch, so such a node
falls through every `isinstance` test. -/
inductive expr where
  | allExpression
  | notExpression (expressions : exprList)
  | andExpression (expressions : exprList)
  | orExpression (expressions : exprList)
  | timerangeExpression (start : Option String) (stop : Option String)
      (startfloat : String) (endfloat : String)
  | containsExpression (field : String) (text : String)
  | notcontainsExpression (field : String) (text : String)
  | isExpression (field : String) (text : String)
  | isnotExpression (field : String) (text : String)
  | startswithExpression (field : String) (text : String)
  | notstartswithExpression (field : String) (text : String)
  | endswithExpression (field : String) (text : String)
  | notendswithExpression (field : String) (text : String)
  | inExpression (field : String) (text : List String)
  | notinExpression (field : String) (text : List String)
  | unrecognizedExpression

/-- Child lists of composite nodes (a mutual inductive so that the generator
below is structurally recursive and computable by the kernel). -/
inductive exprList where
  | nil
  | cons (e : expr) (es : exprList)

end

/-- Modelled from the spec: each composite node records whether it must be
parenthesized when nested (`multi`); the composite nodes are `Not`, `And` and
`Or` (spec sections 3 and 4.1; the expression module is not under src/). -/
def expr.multi : expr → Bool
  | .notExpression _ | .andExpression _ | .orExpression _ => true
  | _ => false

/-- Python truthiness of an optional string attribute (`None` and the empty
string are falsy). -/
def pyTruthyStr : Option String → Bool
  | none => false
  | some s => s ≠ ""

/-- Python truthiness of the optional integer `calendarid` (`None` and `0`
are falsy). -/
def pyTruthyInt : Option Int → Bool
  | none => false
  | some n => n ≠ 0

/-- Value of an optional string, defaulting to the empty string. -/
def optVal : Option String → String
  | none => ""
  | some s => s

namespace sqllitegenerator

def FROM : String := " from "
def WHERE : String := " where "
def RESOURCEDB : String := "RESOURCE"
def TIMESPANDB : String := "TIMESPAN"
def TRANSPARENCYDB : String := "TRANSPARENCY"
def PERUSERDB : String := "PERUSER"
def NOTOP : String := "NOT "
def ANDOP : String := " AND "
def OROP : String := " OR "
def CONTAINSOP : String := " GLOB "
def NOTCONTAINSOP : String := " NOT GLOB "
def ISOP : String := " == "
def ISNOTOP : String := " != "
def STARTSWITHOP : String := " GLOB "
def NOTSTARTSWITHOP : String := " NOT GLOB "
def ENDSWITHOP : String := " GLOB "
def NOTENDSWITHOP : String := " NOT GLOB "
def INOP : String := " IN "
def NOTINOP : String := " NOT IN "

/-- `TIMESPANTEST` template: four `%s` markers. -/
def TIMESPANTEST : List Piece :=
  [Piece.lit "((TIMESPAN.FLOAT == 'N' AND TIMESPAN.START < ", Piece.hole,
   Piece.lit " AND TIMESPAN.END > ", Piece.hole,
   Piece.lit ") OR (TIMESPAN.FLOAT == 'Y' AND TIMESPAN.START < ", Piece.hole,
   Piece.lit " AND TIMESPAN.END > ", Piece.hole, Piece.lit "))"]

/-- `TIMESPANTEST_NOEND` template: two `%s` markers. -/
def TIMESPANTEST_NOEND : List Piece :=
  [Piece.lit "((TIMESPAN.FLOAT == 'N' AND TIMESPAN.END > ", Piece.hole,
   Piece.lit ") OR (TIMESPAN.FLOAT == 'Y' AND TIMESPAN.END > ", Piece.hole,
   Piece.lit "))"]

/-- `TIMESPANTEST_NOSTART` template: two `%s` markers. -/
def TIMESPANTEST_NOSTART : List Piece :=
  [Piece.lit "((TIMESPAN.FLOAT == 'N' AND TIMESPAN.START < ", Piece.hole,
   Piece.lit ") OR (TIMESPAN.FLOAT == 'Y' AND TIMESPAN.START < ", Piece.hole,
   Piece.lit "))"]

/-- `TIMESPANTEST_TAIL_PIECE` (no marker). -/
def TIMESPANTEST_TAIL_PIECE : String :=
  " AND TIMESPAN.RESOURCEID == RESOURCE.RESOURCEID"

/-- `TIMESPANTEST_JOIN_ON_PIECE`: one `%s` marker for the per-user id. -/
def TIMESPANTEST_JOIN_ON_PIECE : List Piece :=
  [Piece.lit "TIMESPAN.INSTANCEID == TRANSPARENCY.INSTANCEID AND TRANSPARENCY.PERUSERID == ",
   Piece.hole]

/-- The mutable compilation state of a `sqllitegenerator` instance during
`generate`: the output stream `sout`, `arguments`, `substitutions` and the
`usedtimespan` flag. -/
structure GenState where
  sout : List Piece
  arguments : List Arg
  substitutions : List String
  usedtimespan : Bool
deriving DecidableEq, Repr

/-- `self.sout.write(...)` with literal text. -/
def GenState.write (st : GenState) (s : String) : GenState :=
  { st with sout := st.sout ++ [Piece.lit s] }

/-- `self.sout.write(test)` with one of the timespan templates (literal text
containing `%s` markers). -/
def GenState.writeT (st : GenState) (ps : List Piece) : GenState :=
  { st with sout := st.sout ++ ps }

/-- `sqllitegenerator.addArgument`: append the argument, append the
substitution string `":" + str(len(self.arguments))`, and write a `%s`
marker to the output stream. -/
def GenState.addArgument (st : GenState) (a : Arg) : GenState :=
  { st with
    arguments := st.arguments ++ [a],
    substitutions := st.substitutions ++ [":" ++ toString (st.arguments.length + 1)],
    sout := st.sout ++ [Piece.hole] }

/-- `sqllitegenerator.setArgument`: append the argument and the substitution
string, without writing a marker. -/
def GenState.setArgument (st : GenState) (a : Arg) : GenState :=
  { st with
    arguments := st.arguments ++ [a],
    substitutions := st.substitutions ++ [":" ++ toString (st.arguments.length + 1)] }

/-- `sqllitegenerator.frontArgument`: insert the argument at the front of the
list and append the substitution string `":" + str(len(self.arguments))`
(the length after the insertion). -/
def GenState.frontArgument (st : GenState) (a : Arg) : GenState :=
  { st with
    arguments := a :: st.arguments,
    substitutions := st.substitutions ++ [":" ++ toString (st.arguments.length + 1)] }

/-- `sqllitegenerator.containsArgument`. -/
def containsArgument (arg : String) : String := "*" ++ arg ++ "*"

/-- `sqllitegenerator.startswithArgument`. -/
def startswithArgument (arg : String) : String := arg ++ "*"

/-- `sqllitegenerator.endswithArgument`. -/
def endswithArgument (arg : String) : String := "*" ++ arg

/-- The loop bodies of the IN / NOT IN cases of `generateExpression`:
`", "` before every item except the first, then `addArgument(item)`. -/
def writeInArgs : Bool → List String → GenState → GenState
  | _, [], st => st
  | first, x :: rest, st =>
      writeInArgs false rest ((if first then st else st.write ", ").addArgument (Arg.str x))

mutual

/-- `sqllitegenerator.generateExpression`, dispatching on the expression
variant exactly as the `isinstance` chain does.  The `ALL` case wipes the
output stream, the argument and substitution lists and the `usedtimespan`
flag.  The `NOT` case writes the operator and generates only
`expr.expressions[0]` (raising `IndexError` when the list is empty); the
parenthesize-if-`multi` wrapping of `generateSubExpression` is inlined here
and in `genList` so that the recursion is structural. -/
def genExpr : expr → GenState → Except QueryError GenState
  | .allExpression, _ => .ok ⟨[], [], [], false⟩
  | .notExpression es, st =>
      let st := st.write NOTOP
      match es with
      | .nil => .error QueryError.indexError
      | .cons e _ =>
          if e.multi then
            match genExpr e (st.write "(") with
            | .ok st' => .ok (st'.write ")")
            | .error err => .error err
          else genExpr e st
  | .andExpression es, st => genList ANDOP true es st
  | .orExpression es, st => genList OROP true es st
  | .timerangeExpression s e sf ef, st =>
      if pyTruthyStr s && pyTruthyStr e then
        .ok { ((((st.setArgument (Arg.str (optVal e))).setArgument
              (Arg.str (optVal s))).setArgument (Arg.str ef)).setArgument
              (Arg.str sf)).writeT TIMESPANTEST with usedtimespan := true }
      else if pyTruthyStr s && decide (e = none) then
        .ok { ((st.setArgument (Arg.str (optVal s))).setArgument
              (Arg.str sf)).writeT TIMESPANTEST_NOEND with usedtimespan := true }
      else if !pyTruthyStr s && pyTruthyStr e then
        .ok { ((st.setArgument (Arg.str (optVal e))).setArgument
              (Arg.str ef)).writeT TIMESPANTEST_NOSTART with usedtimespan := true }
      else
        .error QueryError.unboundLocal
  | .containsExpression f t, st =>
      .ok (((st.write f).write CONTAINSOP).addArgument (Arg.str (containsArgument t)))
  | .notcontainsExpression f t, st =>
      .ok (((st.write f).write NOTCONTAINSOP).addArgument (Arg.str (containsArgument t)))
  | .isExpression f t, st =>
      .ok (((st.write f).write ISOP).addArgument (Arg.str t))
  | .isnotExpression f t, st =>
      .ok (((st.write f).write ISNOTOP).addArgument (Arg.str t))
  | .startswithExpression f t, st =>
      .ok (((st.write f).write STARTSWITHOP).addArgument (Arg.str (startswithArgument t)))
  | .notstartswithExpression f t, st =>
      .ok (((st.write f).write NOTSTARTSWITHOP).addArgument (Arg.str (startswithArgument t)))
  | .endswithExpression f t, st =>
      .ok (((st.write f).write ENDSWITHOP).addArgument (Arg.str (endswithArgument t)))
  | .notendswithExpression f t, st =>
      .ok (((st.write f).write NOTENDSWITHOP).addArgument (Arg.str (endswithArgument t)))
  | .inExpression f txt, st =>
      .ok ((writeInArgs true txt (((st.write f).write INOP).write "(")).write ")")
  | .notinExpression f txt, st =>
      .ok ((writeInArgs true txt (((st.write f).write NOTINOP).write "(")).write ")")
  | .unrecognizedExpression, st => .ok st
termination_by structural e _ => e

/-- The AND / OR loops of `generateExpression`: separator before every child
except the first, each child generated through the (inlined)
`generateSubExpression`. -/
def genList (sep : String) (first : Bool) (es : exprList) (st : GenState) :
    Except QueryError GenState :=
  match es with
  | .nil => .ok st
  | .cons e rest =>
      let st := if first then st else st.write sep
      match
        (if e.multi then
          match genExpr e (st.write "(") with
          | .ok st' => .ok (st'.write ")")
          | .error err => .error err
        else genExpr e st) with
      | .ok st' => genList sep false rest st'
      | .error err => .error err
termination_by structural es

end

/-- `sqllitegenerator.generateSubExpression`: parenthesize the rendering when
the expression is compound. -/
def generateSubExpression (e : expr) (st : GenState) : Except QueryError GenState :=
  if e.multi then
    match genExpr e (st.write "(") with
    | .ok st' => .ok (st'.write ")")
    | .error err => .error err
  else genExpr e st

/-- The state `generate` initializes before walking the expression. -/
def initState : GenState := ⟨[], [], [], false⟩

/-- `self.userid = userid if userid else ""` from `sqllitegenerator.__init__`. -/
def pyUserid (userid : Option String) : String :=
  if pyTruthyStr userid then optVal userid else ""

/-- The text spliced into the select by
`", %s LEFT OUTER JOIN %s ON (%s)" % (TIMESPANDB, TRANSPARENCYDB, TIMESPANTEST_JOIN_ON_PIECE)`:
the inner `%s` of the join-on piece survives as a marker. -/
def joinFrontPieces : List Piece :=
  [Piece.lit (", " ++ TIMESPANDB ++ " LEFT OUTER JOIN " ++ TRANSPARENCYDB ++ " ON (")] ++
  TIMESPANTEST_JOIN_ON_PIECE ++ [Piece.lit ")"]

/-- `sqllitegenerator.generate` up to (but not including) the final
`select % tuple(self.substitutions)` step: returns the statement template,
the substitution list and the argument list. -/
def generateTemplate (e : expr) (calendarid : Option Int) (userid : Option String)
    (freebusy : Bool) : Except QueryError (List Piece × List String × List Arg) :=
  match genExpr e initState with
  | .error err => .error err
  | .ok st =>
      let st := if st.usedtimespan && freebusy then
          st.frontArgument (Arg.str (pyUserid userid)) else st
      let selectFront : List Piece :=
        [Piece.lit (FROM ++ RESOURCEDB)] ++
        (if st.usedtimespan then
          (if freebusy then joinFrontPieces else [Piece.lit (", " ++ TIMESPANDB)])
        else [])
      let st := if st.usedtimespan && pyTruthyInt calendarid then
          st.setArgument (Arg.int ((calendarid).getD 0)) else st
      let template : List Piece :=
        selectFront ++ [Piece.lit WHERE] ++
        (if st.usedtimespan then [Piece.lit "("] else []) ++ st.sout ++
        (if st.usedtimespan then [Piece.lit (")" ++ TIMESPANTEST_TAIL_PIECE)] else [])
      .ok (template, st.substitutions, st.arguments)

/-- Python `%`-formatting of the statement template with the substitution
tuple: each marker consumes one substitution, and a count mismatch in either
direction is a `TypeError` (`none`). -/
def pyformat : List Piece → List String → Option String
  | [], [] => some ""
  | [], _ :: _ => none
  | Piece.lit s :: ps, subs => (pyformat ps subs).map (fun r => s ++ r)
  | Piece.hole :: _, [] => none
  | Piece.hole :: ps, x :: subs => (pyformat ps subs).map (fun r => x ++ r)

/-- `sqllitegenerator.generate`: the full compilation, returning the formatted
partial SQL statement and the argument list. -/
def generate (e : expr) (calendarid : Option Int) (userid : Option String)
    (freebusy : Bool) : Except QueryError (String × List Arg) :=
  match generateTemplate e calendarid userid freebusy with
  | .error err => .error err
  | .ok (template, subs, args) =>
      match pyformat template subs with
      | some sel => .ok (sel, args)
      | none => .error QueryError.typeError

end sqllitegenerator

open sqllitegenerator

example :
    generate (.isExpression "RESOURCE.UID" "abc") none none false =
      .ok (" from RESOURCE where RESOURCE.UID == :1", [Arg.str "abc"]) := rfl

example :
    generate (.andExpression (.cons (.isExpression "RESOURCE.TYPE" "VEVENT")
        (.cons (.containsExpression "RESOURCE.UID" "x") .nil))) none none false =
      .ok (" from RESOURCE where RESOURCE.TYPE == :1 AND RESOURCE.UID GLOB :2",
        [Arg.str "VEVENT", Arg.str "*x*"]) := rfl

example :
    generate (.timerangeExpression (some "S") (some "E") "SF" "EF") none (some "user01") true =
      .ok (" from RESOURCE, TIMESPAN LEFT OUTER JOIN TRANSPARENCY ON (TIMESPAN.INSTANCEID == TRANSPARENCY.INSTANCEID AND TRANSPARENCY.PERUSERID == :1) where (((TIMESPAN.FLOAT == 'N' AND TIMESPAN.START < :2 AND TIMESPAN.END > :3) OR (TIMESPAN.FLOAT == 'Y' AND TIMESPAN.START < :4 AND TIMESPAN.END > :5))) AND TIMESPAN.RESOURCEID == RESOURCE.RESOURCEID",
        [Arg.str "user01", Arg.str "E", Arg.str "S", Arg.str "EF", Arg.str "SF"]) := rfl

example :
    generate (.timerangeExpression (some "S") (some "E") "SF" "EF") none none false =
      .ok (" from RESOURCE, TIMESPAN where (((TIMESPAN.FLOAT == 'N' AND TIMESPAN.START < :1 AND TIMESPAN.END > :2) OR (TIMESPAN.FLOAT == 'Y' AND TIMESPAN.START < :3 AND TIMESPAN.END > :4))) AND TIMESPAN.RESOURCEID == RESOURCE.RESOURCEID",
        [Arg.str "E", Arg.str "S", Arg.str "EF", Arg.str "SF"]) := rfl

example :
    generate (.timerangeExpression (some "S") (some "E") "SF" "EF") (some 1) none false =
      .error QueryError.typeError := rfl

example :
    generate (.notExpression (.cons (.orExpression (.cons (.isExpression "F" "a")
        (.cons (.isExpression "F" "b") .nil))) .nil)) none none false =
      .ok (" from RESOURCE where NOT (F == :1 OR F == :2)", [Arg.str "a", Arg.str "b"]) := rfl

namespace sqllitegenerator

/-- Number of `%s` markers in a piece list. -/
def holes (ps : List Piece) : Nat :=
  ps.countP fun p => match p with | Piece.hole => true | _ => false

@[simp] theorem holes_nil : holes [] = 0 := rfl

@[simp] theorem holes_append (a b : List Piece) : holes (a ++ b) = holes a + holes b :=
  List.countP_append _ _ _

@[simp] theorem holes_cons_lit (s : String) (ps : List Piece) :
    holes (Piece.lit s :: ps) = holes ps := by
  simp [holes, List.countP_cons]

@[simp] theorem holes_cons_hole (ps : List Piece) :
    holes (Piece.hole :: ps) = holes ps + 1 := by
  simp [holes, List.countP_cons]

@[simp] theorem holes_TIMESPANTEST : holes TIMESPANTEST = 4 := rfl

@[simp] theorem holes_TIMESPANTEST_NOEND : holes TIMESPANTEST_NOEND = 2 := rfl

@[simp] theorem holes_TIMESPANTEST_NOSTART : holes TIMESPANTEST_NOSTART = 2 := rfl

/-- The substitution list `[":1", ..., ":n"]`: 1-based and strictly increasing
in emission order. -/
def canonicalSubs (n : Nat) : List String :=
  (List.range n).map fun i => ":" ++ toString (i + 1)

theorem canonicalSubs_succ (n : Nat) :
    canonicalSubs (n + 1) = canonicalSubs n ++ [":" ++ toString (n + 1)] := by
  simp [canonicalSubs, List.range_succ]

@[simp] theorem canonicalSubs_length (n : Nat) : (canonicalSubs n).length = n := by
  simp [canonicalSubs]

/-- Invariant maintained by `generateExpression`: the substitution list is the
canonical 1-based increasing list of argument indices, and the number of `%s`
markers written to the output stream equals the number of arguments. -/
def wellFormed (st : GenState) : Prop :=
  st.substitutions = canonicalSubs st.arguments.length ∧
  holes st.sout = st.arguments.length

theorem wellFormed_initState : wellFormed initState := ⟨rfl, rfl⟩

theorem wellFormed_write (st : GenState) (s : String) (h : wellFormed st) :
    wellFormed (st.write s) := by
  obtain ⟨h1, h2⟩ := h
  exact ⟨by simpa [GenState.write] using h1, by simpa [GenState.write] using h2⟩

theorem wellFormed_addArgument (st : GenState) (a : Arg) (h : wellFormed st) :
    wellFormed (st.addArgument a) := by
  obtain ⟨h1, h2⟩ := h
  constructor
  · simp [GenState.addArgument, h1, canonicalSubs_succ]
  · simpa [GenState.addArgument] using h2

theorem wellFormed_writeInArgs (items : List String) (first : Bool) (st : GenState)
    (h : wellFormed st) : wellFormed (writeInArgs first items st) := by
  induction items generalizing first st with
  | nil => simpa [writeInArgs] using h
  | cons x rest ih =>
      cases first with
      | true => exact ih false _ (wellFormed_addArgument _ _ h)
      | false => exact ih false _ (wellFormed_addArgument _ _ (wellFormed_write _ _ h))

theorem wellFormed_usedtimespan (st : GenState) (b : Bool) (h : wellFormed st) :
    wellFormed { st with usedtimespan := b } := h

theorem wellFormed_setArgs2 (st : GenState) (a b : Arg) (tpl : List Piece)
    (htpl : holes tpl = 2) (h : wellFormed st) :
    wellFormed (((st.setArgument a).setArgument b).writeT tpl) := by
  obtain ⟨h1, h2⟩ := h
  constructor
  · simp [GenState.setArgument, GenState.writeT, h1, canonicalSubs_succ]
  · simp [GenState.setArgument, GenState.writeT, htpl, h2]

theorem wellFormed_setArgs4 (st : GenState) (a b c d : Arg) (h : wellFormed st) :
    wellFormed ((((st.setArgument a).setArgument b).setArgument
      c).setArgument d |>.writeT TIMESPANTEST) := by
  obtain ⟨h1, h2⟩ := h
  constructor
  · simp [GenState.setArgument, GenState.writeT, h1, canonicalSubs_succ]
  · simp [GenState.setArgument, GenState.writeT, h2]

mutual

/-- Every successful `generateExpression` step preserves the argument and
substitution invariant. -/
theorem genExpr_wf (e : expr) (st : GenState) (h : wellFormed st) (st' : GenState)
    (he : genExpr e st = .ok st') : wellFormed st' := by
  cases e with
  | allExpression =>
      simp only [genExpr, Except.ok.injEq] at he
      exact he ▸ wellFormed_initState
  | notExpression es =>
      cases es with
      | nil => simp [genExpr] at he
      | cons e rest =>
          simp only [genExpr] at he
          exact genSub_wf e _ (wellFormed_write _ _ h) st' he
  | andExpression es =>
      simp only [genExpr] at he
      exact genList_wf ANDOP true es st h st' he
  | orExpression es =>
      simp only [genExpr] at he
      exact genList_wf OROP true es st h st' he
  | timerangeExpression s e sf ef =>
      simp only [genExpr] at he
      split at he
      · simp only [Except.ok.injEq] at he
        exact he ▸ wellFormed_usedtimespan _ _ (wellFormed_setArgs4 st _ _ _ _ h)
      · split at he
        · simp only [Except.ok.injEq] at he
          exact he ▸ wellFormed_usedtimespan _ _ (wellFormed_setArgs2 st _ _ _ rfl h)
        · split at he
          · simp only [Except.ok.injEq] at he
            exact he ▸ wellFormed_usedtimespan _ _ (wellFormed_setArgs2 st _ _ _ rfl h)
          · simp at he
  | containsExpression f t =>
      simp only [genExpr, Except.ok.injEq] at he
      exact he ▸ wellFormed_addArgument _ _ (wellFormed_write _ _ (wellFormed_write _ _ h))
  | notcontainsExpression f t =>
      simp only [genExpr, Except.ok.injEq] at he
      exact he ▸ wellFormed_addArgument _ _ (wellFormed_write _ _ (wellFormed_write _ _ h))
  | isExpression f t =>
      simp only [genExpr, Except.ok.injEq] at he
      exact he ▸ wellFormed_addArgument _ _ (wellFormed_write _ _ (wellFormed_write _ _ h))
  | isnotExpression f t =>
      simp only [genExpr, Except.ok.injEq] at he
      exact he ▸ wellFormed_addArgument _ _ (wellFormed_write _ _ (wellFormed_write _ _ h))
  | startswithExpression f t =>
      simp only [genExpr, Except.ok.injEq] at he
      exact he ▸ wellFormed_addArgument _ _ (wellFormed_write _ _ (wellFormed_write _ _ h))
  | notstartswithExpression f t =>
      simp only [genExpr, Except.ok.injEq] at he
      exact he ▸ wellFormed_addArgument _ _ (wellFormed_write _ _ (wellFormed_write _ _ h))
  | endswithExpression f t =>
      simp only [genExpr, Except.ok.injEq] at he
      exact he ▸ wellFormed_addArgument _ _ (wellFormed_write _ _ (wellFormed_write _ _ h))
  | notendswithExpression f t =>
      simp only [genExpr, Except.ok.injEq] at he
      exact he ▸ wellFormed_addArgument _ _ (wellFormed_write _ _ (wellFormed_write _ _ h))
  | inExpression f txt =>
      simp only [genExpr, Except.ok.injEq] at he
      exact he ▸ wellFormed_write _ _ (wellFormed_writeInArgs txt true _
        (wellFormed_write _ _ (wellFormed_write _ _ (wellFormed_write _ _ h))))
  | notinExpression f txt =>
      simp only [genExpr, Except.ok.injEq] at he
      exact he ▸ wellFormed_write _ _ (wellFormed_writeInArgs txt true _
        (wellFormed_write _ _ (wellFormed_write _ _ (wellFormed_write _ _ h))))
  | unrecognizedExpression =>
      simp only [genExpr, Except.ok.injEq] at he
      exact he ▸ h
termination_by (sizeOf e, 0)

/-- The (inlined) `generateSubExpression` step preserves the invariant. -/
theorem genSub_wf (e : expr) (st : GenState) (h : wellFormed st) (st' : GenState)
    (he : (if e.multi then
        match genExpr e (st.write "(") with
        | .ok st₂ => .ok (st₂.write ")")
        | .error err => .error err
      else genExpr e st) = .ok st') : wellFormed st' := by
  split at he
  · cases hg : genExpr e (st.write "(") with
    | ok st₂ =>
        rw [hg] at he
        simp only [Except.ok.injEq] at he
        exact he ▸ wellFormed_write _ _ (genExpr_wf e _ (wellFormed_write _ _ h) st₂ hg)
    | error err => rw [hg] at he; simp at he
  · exact genExpr_wf e st h st' he
termination_by (sizeOf e, 1)

/-- The AND / OR loop preserves the invariant. -/
theorem genList_wf (sep : String) (first : Bool) (es : exprList) (st : GenState)
    (h : wellFormed st) (st' : GenState) (he : genList sep first es st = .ok st') :
    wellFormed st' := by
  cases es with
  | nil =>
      simp only [genList, Except.ok.injEq] at he
      exact he ▸ h
  | cons e rest =>
      simp only [genList] at he
      set stx := if first then st else st.write sep with hstx
      have hx : wellFormed stx := by
        rw [hstx]; split
        · exact h
        · exact wellFormed_write _ _ h
      cases hg : (if e.multi then
          match genExpr e (stx.write "(") with
          | .ok st₂ => .ok (st₂.write ")")
          | .error err => .error err
        else genExpr e stx) with
      | ok st₂ =>
          rw [hg] at he
          exact genList_wf sep false rest st₂ (genSub_wf e stx hx st₂ hg) st' he
      | error err => rw [hg] at he; simp at he
termination_by (sizeOf es, 0)

end

end sqllitegenerator

namespace sqllitegenerator

/-- Successful Python formatting consumes exactly one substitution per marker:
a success certifies marker/substitution parity. -/
theorem pyformat_some_holes (t : List Piece) (subs : List String) (s : String)
    (h : pyformat t subs = some s) : holes t = subs.length := by
  induction t generalizing subs s with
  | nil =>
      cases subs with
      | nil => simp
      | cons x rest => simp [pyformat] at h
  | cons p ps ih =>
      cases p with
      | lit x =>
          simp only [pyformat, Option.map_eq_some'] at h
          obtain ⟨r, hr, _⟩ := h
          simpa using ih subs r hr
      | hole =>
          cases subs with
          | nil => simp [pyformat] at h
          | cons y rest =>
              simp only [pyformat, Option.map_eq_some'] at h
              obtain ⟨r, hr, _⟩ := h
              simpa using ih rest r hr

theorem canonicalPart_frontArgument (st : GenState) (a : Arg)
    (h : st.substitutions = canonicalSubs st.arguments.length) :
    (st.frontArgument a).substitutions =
      canonicalSubs (st.frontArgument a).arguments.length := by
  simp [GenState.frontArgument, h, canonicalSubs_succ]

theorem canonicalPart_setArgument (st : GenState) (a : Arg)
    (h : st.substitutions = canonicalSubs st.arguments.length) :
    (st.setArgument a).substitutions =
      canonicalSubs (st.setArgument a).arguments.length := by
  simp [GenState.setArgument, h, canonicalSubs_succ]

theorem canonicalPart_ite_front (c : Prop) [Decidable c] (stX : GenState) (a : Arg)
    (h : stX.substitutions = canonicalSubs stX.arguments.length) :
    (if c then stX.frontArgument a else stX).substitutions =
      canonicalSubs (if c then stX.frontArgument a else stX).arguments.length := by
  split
  · exact canonicalPart_frontArgument _ _ h
  · exact h

theorem canonicalPart_ite_set (c : Prop) [Decidable c] (stX : GenState) (a : Arg)
    (h : stX.substitutions = canonicalSubs stX.arguments.length) :
    (if c then stX.setArgument a else stX).substitutions =
      canonicalSubs (if c then stX.setArgument a else stX).arguments.length := by
  split
  · exact canonicalPart_setArgument _ _ h
  · exact h

/-- Whatever `generate` assembles, the substitution list it will format with is
the canonical 1-based strictly increasing list `[":1", ..., ":n"]` for `n` the
final number of arguments. -/
theorem generateTemplate_subs_canonical (e : expr) (calendarid : Option Int)
    (userid : Option String) (freebusy : Bool) (t : List Piece) (subs : List String)
    (args : List Arg)
    (hT : generateTemplate e calendarid userid freebusy = .ok (t, subs, args)) :
    subs = canonicalSubs args.length := by
  cases hg : genExpr e initState with
  | error err => simp [generateTemplate, hg] at hT
  | ok st =>
      have hwf := genExpr_wf e initState wellFormed_initState st hg
      simp only [generateTemplate, hg, Except.ok.injEq, Prod.mk.injEq] at hT
      obtain ⟨-, h2, h3⟩ := hT
      rw [← h2, ← h3]
      exact canonicalPart_ite_set _ _ _ (canonicalPart_ite_front _ _ _ hwf.1)

end sqllitegenerator

open sqllitegenerator

/-- Claim C3 (confirmed): whenever compilation returns a clause and an
argument list, the substitution list that filled the clause's markers is
exactly the canonical list `[":1", ..., ":n"]` for `n` the argument-list
length: the clause has as many (pairwise distinct) positional placeholders
as arguments, numbered 1-based and strictly increasing in emission order. -/
theorem compiler_argument_placeholder_parity (e : expr) (calendarid : Option Int)
    (userid : Option String) (freebusy : Bool) (sel : String) (args : List Arg)
    (h : generate e calendarid userid freebusy = .ok (sel, args)) :
    ∃ t subs, generateTemplate e calendarid userid freebusy = .ok (t, subs, args) ∧
      subs = canonicalSubs args.length ∧ holes t = args.length ∧
      pyformat t subs = some sel := by
  cases hT : generateTemplate e calendarid userid freebusy with
  | error err => simp [generate, hT] at h
  | ok triple =>
      obtain ⟨t, subs, args0⟩ := triple
      cases hF : pyformat t subs with
      | none => simp [generate, hT, hF] at h
      | some s =>
          simp only [generate, hT, hF, Except.ok.injEq, Prod.mk.injEq] at h
          obtain ⟨hs, hargs⟩ := h
          subst hs
          subst hargs
          have hc := generateTemplate_subs_canonical _ _ _ _ _ _ _ hT
          have hh := pyformat_some_holes t subs _ hF
          refine ⟨t, subs, rfl, hc, ?_, hF⟩
          simp [hh, hc]

/-- Witness for C3 at the concrete tree `RESOURCE.UID == "abc"`. -/
theorem compiler_argument_placeholder_parity_witness :
    ∃ t subs,
      generateTemplate (.isExpression "RESOURCE.UID" "abc") none none false =
        .ok (t, subs, [Arg.str "abc"]) ∧
      subs = canonicalSubs [Arg.str "abc"].length ∧
      holes t = [Arg.str "abc"].length ∧
      pyformat t subs = some " from RESOURCE where RESOURCE.UID == :1" :=
  compiler_argument_placeholder_parity (.isExpression "RESOURCE.UID" "abc") none none
    false " from RESOURCE where RESOURCE.UID == :1" [Arg.str "abc"] rfl

/-- Claim C1 is false as stated: this tree contains an `All` node, yet it does
not compile to the unconditional-match clause with no arguments — the sibling
generated after the `All` reset re-contributes clause text and an argument. -/
theorem all_short_circuit_counterexample :
    generate (.andExpression (.cons .allExpression
        (.cons (.isExpression "RESOURCE.UID" "abc") .nil))) none none false =
      .ok (" from RESOURCE where  AND RESOURCE.UID == :1", [Arg.str "abc"]) ∧
    " from RESOURCE where  AND RESOURCE.UID == :1" ≠ FROM ++ RESOURCEDB ++ WHERE ∧
    [Arg.str "abc"] ≠ ([] : List Arg) :=
  ⟨rfl, by decide, by decide⟩

/-- Claim C1 (corrected): encountering an `All` node resets all state
accumulated so far — output stream, argument list, substitution list and the
time-span flag — so a tree in which the `All` node is the last node visited
(in particular the bare `All` tree) compiles to the unconditional-match
clause with no arguments; output generated after the reset is kept. -/
theorem all_resets_accumulated_state (st : GenState) (calendarid : Option Int)
    (userid : Option String) (freebusy : Bool) :
    genExpr .allExpression st = .ok initState ∧
    generate .allExpression calendarid userid freebusy =
      .ok (FROM ++ RESOURCEDB ++ WHERE, []) :=
  ⟨rfl, rfl⟩

/-- Claim C5 is false as stated: the no-bounds time range fails compilation,
but with the unbound-local error, not with `InvalidQuery`. -/
theorem timerange_no_bounds_counterexample :
    generate (.timerangeExpression none none "SF" "EF") none none false =
      .error QueryError.unboundLocal ∧
    generate (.timerangeExpression none none "SF" "EF") none none false ≠
      .error QueryError.invalidQuery := by
  refine ⟨rfl, fun hcon => ?_⟩
  rw [show generate (.timerangeExpression none none "SF" "EF") none none false =
    .error QueryError.unboundLocal from rfl] at hcon
  simp at hcon

/-- Claim C5 (corrected): a `TimeRange` node with neither bound set fails
compilation with the Python unbound-local error — no branch assigns the
comparison template `test`, which is then read — not with `InvalidQuery`. -/
theorem timerange_no_bounds_fails_unboundLocal (sf ef : String) (st : GenState)
    (calendarid : Option Int) (userid : Option String) (freebusy : Bool) :
    genExpr (.timerangeExpression none none sf ef) st =
      .error QueryError.unboundLocal ∧
    generate (.timerangeExpression none none sf ef) calendarid userid freebusy =
      .error QueryError.unboundLocal :=
  ⟨rfl, rfl⟩

/-- Claim C6 is false as stated: a node of unrecognized variant does not fail
compilation with `UnsupportedExpression`; it compiles successfully to the
unconditional-match clause because the dispatch chain has no else branch. -/
theorem unrecognized_variant_counterexample :
    generate .unrecognizedExpression none none false =
      .ok (FROM ++ RESOURCEDB ++ WHERE, []) ∧
    generate .unrecognizedExpression none none false ≠
      .error QueryError.unsupportedExpression := by
  refine ⟨rfl, fun hcon => ?_⟩
  rw [show generate .unrecognizedExpression none none false =
    .ok (FROM ++ RESOURCEDB ++ WHERE, []) from rfl] at hcon
  simp at hcon

/-- Claim C6 (corrected): an expression node of unrecognized variant is
silently skipped by `generateExpression` — it contributes no clause text and
no arguments, and no error is raised. -/
theorem unrecognized_variant_silently_ignored (st : GenState) :
    genExpr .unrecognizedExpression st = .ok st :=
  rfl

/-- Claim C7 is false as stated: a zero-child `And` composite does not fail
compilation with `InvalidQuery`; it compiles successfully, contributing no
clause text. -/
theorem empty_composite_counterexample :
    generate (.andExpression .nil) none none false =
      .ok (FROM ++ RESOURCEDB ++ WHERE, []) ∧
    generate (.andExpression .nil) none none false ≠
      .error QueryError.invalidQuery := by
  refine ⟨rfl, fun hcon => ?_⟩
  rw [show generate (.andExpression .nil) none none false =
    .ok (FROM ++ RESOURCEDB ++ WHERE, []) from rfl] at hcon
  simp at hcon

/-- Claim C7 (corrected): zero-child `And` and `Or` composites are silently
accepted, contributing no clause text and no arguments; a zero-child `Not`
fails with the index-out-of-range error of `expr.expressions[0]`, not with
`InvalidQuery`. -/
theorem empty_composite_behavior (st : GenState) :
    genExpr (.andExpression .nil) st = .ok st ∧
    genExpr (.orExpression .nil) st = .ok st ∧
    genExpr (.notExpression .nil) st = .error QueryError.indexError :=
  ⟨rfl, rfl, rfl⟩

/-- Claim C10 (confirmed): a `Not` node with one or more children emits the
negation operator and then only its first child through the
parenthesize-if-compound sub-expression rendering; children beyond the first
are ignored and contribute neither clause text nor arguments. -/
theorem not_uses_only_first_child (c : expr) (cs : exprList) (st : GenState) :
    genExpr (.notExpression (.cons c cs)) st =
      generateSubExpression c (st.write NOTOP) ∧
    genExpr (.notExpression (.cons c cs)) st =
      genExpr (.notExpression (.cons c .nil)) st :=
  ⟨rfl, rfl⟩

namespace sqllitegenerator

@[simp] theorem holes_joinFrontPieces : holes joinFrontPieces = 1 := rfl

/-- A template/substitution pair whose formatting fails makes `generate`
return the type error. -/
theorem generate_error_of_pyformat_none (e : expr) (calendarid : Option Int)
    (userid : Option String) (freebusy : Bool) (t : List Piece) (subs : List String)
    (args : List Arg)
    (hT : generateTemplate e calendarid userid freebusy = .ok (t, subs, args))
    (hf : pyformat t subs = none) :
    generate e calendarid userid freebusy = .error QueryError.typeError := by
  simp [generate, hT, hf]

end sqllitegenerator

/-- Claim C2 is false as stated: this tree contains a time-range leaf, yet in
free-busy mode it compiles to the plain unconditional clause with no
transparency join and no user argument, because the later `All` sibling reset
the accumulated state including the time-span flag. -/
theorem freebusy_join_counterexample :
    generate (.andExpression (.cons
        (.timerangeExpression (some "S") (some "E") "SF" "EF")
        (.cons .allExpression .nil))) none (some "user01") true =
      .ok (FROM ++ RESOURCEDB ++ WHERE, []) :=
  rfl

/-- Assembly of the statement in free-busy mode with no collection scope and
the time-span flag set: join template in front, user argument prepended,
its substitution entry appended. -/
theorem generateTemplate_freebusy_assembly (e : expr) (userid : Option String)
    (st : GenState) (hg : genExpr e initState = .ok st)
    (hu : st.usedtimespan = true) :
    generateTemplate e none userid true =
      .ok ([Piece.lit (FROM ++ RESOURCEDB)] ++ joinFrontPieces ++
             [Piece.lit WHERE] ++ [Piece.lit "("] ++ st.sout ++
             [Piece.lit (")" ++ TIMESPANTEST_TAIL_PIECE)],
           st.substitutions ++ [":" ++ toString (st.arguments.length + 1)],
           Arg.str (pyUserid userid) :: st.arguments) := by
  simp [generateTemplate, hg, hu, GenState.frontArgument, pyTruthyInt]

/-- Claim C2 (corrected): for every compilation in free-busy mode with no
collection scope whose generation ends with the time-span flag set (a
time-range leaf was generated and not reset afterwards by an `All`), the
assembled statement left-outer-joins the per-user transparency overlay keyed
by the time span's instance and the requesting user
(`TIMESPANTEST_JOIN_ON_PIECE`), the requesting user's identifier is
prepended to the argument list as argument 1, and the substitution entry
created for it is appended after the existing entries. -/
theorem freebusy_transparency_join (e : expr) (userid : Option String)
    (st : GenState) (hg : genExpr e initState = .ok st)
    (hu : st.usedtimespan = true) :
    generateTemplate e none userid true =
      .ok ([Piece.lit (FROM ++ RESOURCEDB)] ++ joinFrontPieces ++
             [Piece.lit WHERE] ++ [Piece.lit "("] ++ st.sout ++
             [Piece.lit (")" ++ TIMESPANTEST_TAIL_PIECE)],
           st.substitutions ++ [":" ++ toString (st.arguments.length + 1)],
           Arg.str (pyUserid userid) :: st.arguments) :=
  generateTemplate_freebusy_assembly e userid st hg hu

/-- Witness for the corrected C2 at a concrete time-range tree. -/
theorem freebusy_transparency_join_witness :
    genExpr (.timerangeExpression (some "S") (some "E") "SF" "EF") initState =
      .ok ⟨TIMESPANTEST, [Arg.str "E", Arg.str "S", Arg.str "EF", Arg.str "SF"],
           [":1", ":2", ":3", ":4"], true⟩ ∧
    generateTemplate (.timerangeExpression (some "S") (some "E") "SF" "EF") none
        (some "user01") true =
      .ok ([Piece.lit (FROM ++ RESOURCEDB)] ++ joinFrontPieces ++
             [Piece.lit WHERE] ++ [Piece.lit "("] ++ TIMESPANTEST ++
             [Piece.lit (")" ++ TIMESPANTEST_TAIL_PIECE)],
           [":1", ":2", ":3", ":4", ":5"],
           [Arg.str "user01", Arg.str "E", Arg.str "S", Arg.str "EF", Arg.str "SF"]) :=
  ⟨rfl, freebusy_transparency_join (.timerangeExpression (some "S") (some "E") "SF" "EF")
    (some "user01")
    ⟨TIMESPANTEST, [Arg.str "E", Arg.str "S", Arg.str "EF", Arg.str "SF"],
     [":1", ":2", ":3", ":4"], true⟩ rfl rfl⟩

/-- Claim C4 is false as stated: with a time-range leaf and a collection scope
this compilation produces no clause at all — it fails with the formatting
type error — and its clause would in any case contain no collection-id
equality predicate. -/
theorem calendarid_scope_counterexample :
    generate (.timerangeExpression (some "S") (some "E") "SF" "EF") (some 1) none false =
      .error QueryError.typeError :=
  rfl

/-- Assembly of the statement for a used time span, truthy collection scope
and no free-busy mode: the collection id is appended as argument and
substitution, the template gains no matching marker. -/
theorem generateTemplate_calendarid_plain (e : expr) (n : Int) (userid : Option String)
    (st : GenState) (hg : genExpr e initState = .ok st) (hu : st.usedtimespan = true)
    (h0 : n ≠ 0) :
    generateTemplate e (some n) userid false =
      .ok ([Piece.lit (FROM ++ RESOURCEDB)] ++ [Piece.lit (", " ++ TIMESPANDB)] ++
             [Piece.lit WHERE] ++ [Piece.lit "("] ++ st.sout ++
             [Piece.lit (")" ++ TIMESPANTEST_TAIL_PIECE)],
           st.substitutions ++ [":" ++ toString (st.arguments.length + 1)],
           st.arguments ++ [Arg.int n]) := by
  simp [generateTemplate, hg, hu, pyTruthyInt, h0, GenState.setArgument]

/-- Assembly of the statement for a used time span, truthy collection scope
and free-busy mode: the user id is prepended, then the collection id appended,
with substitutions appended for both. -/
theorem generateTemplate_calendarid_freebusy (e : expr) (n : Int) (userid : Option String)
    (st : GenState) (hg : genExpr e initState = .ok st) (hu : st.usedtimespan = true)
    (h0 : n ≠ 0) :
    generateTemplate e (some n) userid true =
      .ok ([Piece.lit (FROM ++ RESOURCEDB)] ++ joinFrontPieces ++
             [Piece.lit WHERE] ++ [Piece.lit "("] ++ st.sout ++
             [Piece.lit (")" ++ TIMESPANTEST_TAIL_PIECE)],
           st.substitutions ++ [":" ++ toString (st.arguments.length + 1)] ++
             [":" ++ toString (st.arguments.length + 1 + 1)],
           (Arg.str (pyUserid userid) :: st.arguments) ++ [Arg.int n]) := by
  simp [generateTemplate, hg, hu, pyTruthyInt, h0, GenState.setArgument,
    GenState.frontArgument]

/-- Claim C4 (corrected): when the time-span flag is set and a collection
scope is given, the collection identifier is appended as the last element of
the argument list and a substitution entry is appended for it, but the
assembled template ends with the tail conjunct tying the time-span relation
to the base resource only — no collection-id equality predicate — leaving one
more substitution than markers, so the final formatting step fails and
compilation returns the type error instead of a clause. -/
theorem calendarid_scope_mismatch (e : expr) (n : Int) (userid : Option String)
    (freebusy : Bool) (st : GenState) (hg : genExpr e initState = .ok st)
    (hu : st.usedtimespan = true) (h0 : n ≠ 0) :
    ∃ t subs args,
      generateTemplate e (some n) userid freebusy = .ok (t, subs, args) ∧
      args.getLast? = some (Arg.int n) ∧
      t.getLast? = some (Piece.lit (")" ++ TIMESPANTEST_TAIL_PIECE)) ∧
      subs.length = holes t + 1 ∧
      pyformat t subs = none ∧
      generate e (some n) userid freebusy = .error QueryError.typeError := by
  have hwf := genExpr_wf e initState wellFormed_initState st hg
  cases freebusy with
  | false =>
      have hT := generateTemplate_calendarid_plain e n userid st hg hu h0
      have hlen : (st.substitutions ++ [":" ++ toString (st.arguments.length + 1)]).length =
          holes ([Piece.lit (FROM ++ RESOURCEDB)] ++ [Piece.lit (", " ++ TIMESPANDB)] ++
            [Piece.lit WHERE] ++ [Piece.lit "("] ++ st.sout ++
            [Piece.lit (")" ++ TIMESPANTEST_TAIL_PIECE)]) + 1 := by
        simp [hwf.1, hwf.2]
      have hnone : pyformat
          ([Piece.lit (FROM ++ RESOURCEDB)] ++ [Piece.lit (", " ++ TIMESPANDB)] ++
            [Piece.lit WHERE] ++ [Piece.lit "("] ++ st.sout ++
            [Piece.lit (")" ++ TIMESPANTEST_TAIL_PIECE)])
          (st.substitutions ++ [":" ++ toString (st.arguments.length + 1)]) = none := by
        cases hpf : pyformat _ _ with
        | none => rfl
        | some s =>
            have := pyformat_some_holes _ _ _ hpf
            rw [hlen] at this
            omega
      exact ⟨_, _, _, hT, List.getLast?_concat _, List.getLast?_concat _, hlen, hnone,
        generate_error_of_pyformat_none _ _ _ _ _ _ _ hT hnone⟩
  | true =>
      have hT := generateTemplate_calendarid_freebusy e n userid st hg hu h0
      have hlen : (st.substitutions ++ [":" ++ toString (st.arguments.length + 1)] ++
            [":" ++ toString (st.arguments.length + 1 + 1)]).length =
          holes ([Piece.lit (FROM ++ RESOURCEDB)] ++ joinFrontPieces ++
            [Piece.lit WHERE] ++ [Piece.lit "("] ++ st.sout ++
            [Piece.lit (")" ++ TIMESPANTEST_TAIL_PIECE)]) + 1 := by
        simp [hwf.1, hwf.2]
        omega
      have hnone : pyformat
          ([Piece.lit (FROM ++ RESOURCEDB)] ++ joinFrontPieces ++
            [Piece.lit WHERE] ++ [Piece.lit "("] ++ st.sout ++
            [Piece.lit (")" ++ TIMESPANTEST_TAIL_PIECE)])
          (st.substitutions ++ [":" ++ toString (st.arguments.length + 1)] ++
            [":" ++ toString (st.arguments.length + 1 + 1)]) = none := by
        cases hpf : pyformat _ _ with
        | none => rfl
        | some s =>
            have := pyformat_some_holes _ _ _ hpf
            rw [hlen] at this
            omega
      exact ⟨_, _, _, hT, List.getLast?_concat _, List.getLast?_concat _, hlen, hnone,
        generate_error_of_pyformat_none _ _ _ _ _ _ _ hT hnone⟩

/-- Witness for the corrected C4 at a concrete time-range tree with
collection scope 1. -/
theorem calendarid_scope_mismatch_witness :
    ∃ t subs args,
      generateTemplate (.timerangeExpression (some "S") (some "E") "SF" "EF")
          (some 1) none false = .ok (t, subs, args) ∧
      args.getLast? = some (Arg.int 1) ∧
      t.getLast? = some (Piece.lit (")" ++ TIMESPANTEST_TAIL_PIECE)) ∧
      subs.length = holes t + 1 ∧
      pyformat t subs = none ∧
      generate (.timerangeExpression (some "S") (some "E") "SF" "EF")
          (some 1) none false = .error QueryError.typeError :=
  calendarid_scope_mismatch (.timerangeExpression (some "S") (some "E") "SF" "EF")
    1 none false
    ⟨TIMESPANTEST, [Arg.str "E", Arg.str "S", Arg.str "EF", Arg.str "SF"],
     [":1", ":2", ":3", ":4"], true⟩ rfl rfl (by decide)

/-- Claim C9 (confirmed): a compiler constructed with a falsy user identifier
(None or the empty string) stores the user identifier as the empty string,
and a free-busy compilation of a time-range tree then binds the empty string
as the transparency-join user argument (argument 1) instead of failing. -/
theorem falsy_userid_stored_empty (u : Option String) (sv ev sf ef : String)
    (hu : u = none ∨ u = some "") (hs : sv ≠ "") (he : ev ≠ "") :
    pyUserid u = "" ∧
    ∃ sel, generate (.timerangeExpression (some sv) (some ev) sf ef) none u true =
      .ok (sel, [Arg.str "", Arg.str ev, Arg.str sv, Arg.str ef, Arg.str sf]) := by
  have hpu : pyUserid u = "" := by
    rcases hu with h | h <;> subst h <;> rfl
  refine ⟨hpu, ?_⟩
  have hg : genExpr (.timerangeExpression (some sv) (some ev) sf ef) initState =
      .ok ⟨TIMESPANTEST, [Arg.str ev, Arg.str sv, Arg.str ef, Arg.str sf],
           [":1", ":2", ":3", ":4"], true⟩ := by
    simp [genExpr, pyTruthyStr, hs, he, GenState.setArgument, GenState.writeT,
      optVal, initState]
    decide
  have hT := generateTemplate_freebusy_assembly _ u _ hg rfl
  rw [hpu] at hT
  simp only [generate, hT]
  exact ⟨_, rfl⟩

/-- Witness for C9 with user identifier None and concrete bounds. -/
theorem falsy_userid_stored_empty_witness :
    pyUserid none = "" ∧
    ∃ sel, generate (.timerangeExpression (some "A") (some "B") "C" "D") none none true =
      .ok (sel, [Arg.str "", Arg.str "B", Arg.str "A", Arg.str "D", Arg.str "C"]) :=
  falsy_userid_stored_empty none "A" "B" "C" "D" (Or.inl rfl) (by decide) (by decide)

/-- Two-digit decimal rendering. -/
def pad2 (n : Nat) : String :=
  if n < 10 then "0" ++ toString n else toString n

/-- Rendering of an instant in the iCalendar UTC form used by the free-busy
tests, with instants counted in minutes from 2008-06-01T00:00:00Z (the day
used throughout `test_freebusy.py`). -/
def fmtInstant (n : Nat) : String :=
  "200806" ++ pad2 (1 + n / 1440) ++ "T" ++ pad2 (n % 1440 / 60) ++ pad2 (n % 60) ++ "00Z"

/-- A half-open period over instants; `stop` models the source attribute
`end` (a reserved word here). -/
structure Period where
  start : Nat
  stop : Nat
deriving DecidableEq, Repr

/-- `FreebusyQuery.FBInfo`: the busy, tentative and unavailable buckets. -/
structure FBInfo where
  busy : List Period
  tentative : List Period
  unavailable : List Period
deriving DecidableEq, Repr

/-- Stable ascending insertion by period start (inserts after equal starts). -/
def insertPeriod (p : Period) : List Period → List Period
  | [] => [p]
  | q :: rest => if q.start ≤ p.start then q :: insertPeriod p rest else p :: q :: rest

/-- Stable sort of periods, ascending by start. -/
def sortPeriods : List Period → List Period
  | [] => []
  | p :: rest => insertPeriod p (sortPeriods rest)

/-- Merge pass over a start-sorted list: a period whose start is at most the
accumulator's end extends it to the larger end; otherwise the accumulator is
emitted and restarted. -/
def mergeSorted (p : Period) : List Period → List Period
  | [] => [p]
  | q :: rest =>
      if q.start ≤ p.stop then mergeSorted ⟨p.start, max p.stop q.stop⟩ rest
      else p :: mergeSorted q rest

/-- Modelled from the spec: `normalizePeriodList` (the merging step of section
4.3; the implementation is not under src/) — sort ascending by start with a
stable sort, then merge overlapping or touching periods into a sorted,
non-overlapping sequence. -/
def normalizePeriodList (ps : List Period) : List Period :=
  match sortPeriods ps with
  | [] => []
  | p :: rest => mergeSorted p rest

def prodidLine : String := "PRODID:-//CALENDARSERVER.ORG//NONSGML Version 1//EN"

def renderPeriod (p : Period) : String :=
  fmtInstant p.start ++ "/" ++ fmtInstant p.stop

def renderPeriods (ps : List Period) : String :=
  String.intercalate "," (ps.map renderPeriod)

/-- One `FREEBUSY` property for a bucket: absent when the bucket merges to
empty, otherwise a single property listing the merged periods as a
comma-joined sequence of start/end pairs. -/
def fbProp (tag : String) (ps : List Period) : List String :=
  match normalizePeriodList ps with
  | [] => []
  | qs => ["FREEBUSY;FBTYPE=" ++ tag ++ ":" ++ renderPeriods qs]

/-- A disclosed event detail: a minimal stripped event block carrying only
start and end. -/
def eventBlock (p : Period) : List String :=
  ["BEGIN:VEVENT", "DTSTART:" ++ fmtInstant p.start,
   "DTEND:" ++ fmtInstant p.stop, "END:VEVENT"]

/-- Modelled from the spec: `FreebusyQuery.buildFreeBusyResult` (the
implementation is not under src/, only its unit test
`BuildFreeBusyResult.test_simple` is).  The component structure follows spec
section 4.4; the rendered property order follows the expected outputs of that
in-src test: DTSTART, DTEND, then ATTENDEE when supplied, then the FREEBUSY
properties in the fixed bucket order BUSY, BUSY-TENTATIVE, BUSY-UNAVAILABLE,
then ORGANIZER when supplied.  Event-detail blocks precede the free-busy
block.  The result is the list of rendered lines (UID and DTSTAMP are
normalized away by the test and therefore omitted). -/
def buildFreeBusyResult (fbinfo : FBInfo) (timerange : Period)
    (organizer attendee : Option String) (event_details : List Period) : List String :=
  ["BEGIN:VCALENDAR", "VERSION:2.0", prodidLine] ++
  (event_details.map eventBlock).flatten ++
  ["BEGIN:VFREEBUSY", "DTSTART:" ++ fmtInstant timerange.start,
   "DTEND:" ++ fmtInstant timerange.stop] ++
  (match attendee with | none => [] | some a => ["ATTENDEE:" ++ a]) ++
  fbProp "BUSY" fbinfo.busy ++
  fbProp "BUSY-TENTATIVE" fbinfo.tentative ++
  fbProp "BUSY-UNAVAILABLE" fbinfo.unavailable ++
  (match organizer with | none => [] | some o => ["ORGANIZER:" ++ o]) ++
  ["END:VFREEBUSY", "END:VCALENDAR"]

example :
    buildFreeBusyResult ⟨[], [], []⟩ ⟨0, 1440⟩ none none [] =
      ["BEGIN:VCALENDAR", "VERSION:2.0", prodidLine, "BEGIN:VFREEBUSY",
       "DTSTART:20080601T000000Z", "DTEND:20080602T000000Z",
       "END:VFREEBUSY", "END:VCALENDAR"] := rfl

example :
    buildFreeBusyResult ⟨[⟨720, 780⟩, ⟨750, 810⟩, ⟨840, 900⟩, ⟨900, 960⟩], [], []⟩
      ⟨0, 1440⟩ (some "mailto:user01@example.com") (some "mailto:user02@example.com") [] =
      ["BEGIN:VCALENDAR", "VERSION:2.0", prodidLine, "BEGIN:VFREEBUSY",
       "DTSTART:20080601T000000Z", "DTEND:20080602T000000Z",
       "ATTENDEE:mailto:user02@example.com",
       "FREEBUSY;FBTYPE=BUSY:20080601T120000Z/20080601T133000Z,20080601T140000Z/20080601T160000Z",
       "ORGANIZER:mailto:user01@example.com",
       "END:VFREEBUSY", "END:VCALENDAR"] := rfl

example :
    buildFreeBusyResult ⟨[⟨720, 780⟩, ⟨840, 900⟩], [⟨840, 900⟩], [⟨960, 1020⟩]⟩
      ⟨0, 1440⟩ (some "mailto:user01@example.com") (some "mailto:user02@example.com") [] =
      ["BEGIN:VCALENDAR", "VERSION:2.0", prodidLine, "BEGIN:VFREEBUSY",
       "DTSTART:20080601T000000Z", "DTEND:20080602T000000Z",
       "ATTENDEE:mailto:user02@example.com",
       "FREEBUSY;FBTYPE=BUSY:20080601T120000Z/20080601T130000Z,20080601T140000Z/20080601T150000Z",
       "FREEBUSY;FBTYPE=BUSY-TENTATIVE:20080601T140000Z/20080601T150000Z",
       "FREEBUSY;FBTYPE=BUSY-UNAVAILABLE:20080601T160000Z/20080601T170000Z",
       "ORGANIZER:mailto:user01@example.com",
       "END:VFREEBUSY", "END:VCALENDAR"] := rfl

example :
    buildFreeBusyResult ⟨[⟨720, 780⟩], [], []⟩ ⟨0, 1440⟩
      (some "mailto:user01@example.com") (some "mailto:user02@example.com")
      [⟨720, 780⟩] =
      ["BEGIN:VCALENDAR", "VERSION:2.0", prodidLine,
       "BEGIN:VEVENT", "DTSTART:20080601T120000Z", "DTEND:20080601T130000Z", "END:VEVENT",
       "BEGIN:VFREEBUSY",
       "DTSTART:20080601T000000Z", "DTEND:20080602T000000Z",
       "ATTENDEE:mailto:user02@example.com",
       "FREEBUSY;FBTYPE=BUSY:20080601T120000Z/20080601T130000Z",
       "ORGANIZER:mailto:user01@example.com",
       "END:VFREEBUSY", "END:VCALENDAR"] := rfl

/-- Whether `s` starts with prefix `p` (character-list based, so the kernel
evaluates it). -/
def strStarts (p s : String) : Bool := p.data.isPrefixOf s.data

/-- Index of the first line starting with the given text. -/
def firstIdx (p : String) (lines : List String) : Option Nat :=
  lines.findIdx? (fun l => strStarts p l)

/-- The property order asserted by the claim: organizer strictly before
attendee strictly before the first FREEBUSY property (vacuously true when
one of the three is absent). -/
def claimedPropertyOrder (lines : List String) : Bool :=
  match firstIdx "ORGANIZER" lines, firstIdx "ATTENDEE" lines,
      firstIdx "FREEBUSY" lines with
  | some o, some a, some f => decide (o < a) && decide (a < f)
  | _, _, _ => true

/-- Claim C8 is false as stated: on the repository's own mixed-bucket test
input (case 1.6 of `BuildFreeBusyResult.test_simple`), the rendered order is
attendee, then the FREEBUSY properties, then organizer — the organizer does
not precede the attendee and the free-busy properties. -/
theorem property_order_counterexample :
    claimedPropertyOrder (buildFreeBusyResult
      ⟨[⟨720, 780⟩, ⟨840, 900⟩], [⟨840, 900⟩], [⟨960, 1020⟩]⟩ ⟨0, 1440⟩
      (some "mailto:user01@example.com") (some "mailto:user02@example.com") []) =
      false := by decide

/-- Claim C8 (corrected): a rendered free-busy result opens with the range
start and end, then the attendee property when supplied, then the FREEBUSY
properties — one per non-empty bucket, in the fixed order BUSY,
BUSY-TENTATIVE, BUSY-UNAVAILABLE — and then the organizer property when
supplied (the repository's test expectations place the attendee before and
the organizer after the free-busy properties); disclosed event-detail blocks
precede the free-busy block. -/
theorem property_order_rendered (fbinfo : FBInfo) (timerange : Period)
    (org att : String) (event_details : List Period) :
    buildFreeBusyResult fbinfo timerange (some org) (some att) event_details =
      ["BEGIN:VCALENDAR", "VERSION:2.0", prodidLine] ++
      (event_details.map eventBlock).flatten ++
      ["BEGIN:VFREEBUSY", "DTSTART:" ++ fmtInstant timerange.start,
       "DTEND:" ++ fmtInstant timerange.stop, "ATTENDEE:" ++ att] ++
      fbProp "BUSY" fbinfo.busy ++ fbProp "BUSY-TENTATIVE" fbinfo.tentative ++
      fbProp "BUSY-UNAVAILABLE" fbinfo.unavailable ++
      ("ORGANIZER:" ++ org) :: ["END:VFREEBUSY", "END:VCALENDAR"] := by
  simp [buildFreeBusyResult, List.append_assoc]
